import Mathlib

/-!
Verification development for the snow-globe particle-physics integrator
(`updateSnowflakesFn` in `src/snowdome/shaders/physics.ts`) and its noise
helper (`noise3DFn` in `src/snowdome/shaders/common.ts`).

Modelling conventions:
* WGSL `f32` arithmetic is idealised as exact real arithmetic (`ℝ`).
* The WGSL conversion `f32(i32(x))` truncates toward zero; it is modelled
  by `truncR`.
* `sqrt`, `sin`, `cos` are the real functions `Real.sqrt`, `Real.sin`,
  `Real.cos`.  (`Real.sqrt` of a negative argument is `0`; the shader would
  produce NaN there, so theorems that touch such branches carry the
  hypotheses — `0 ≤ time`, `0 ≤ domeRadius` — that keep every `sqrt`
  argument nonnegative.)
* The GPU dispatch (one invocation per index, each reading and writing only
  its own array slot) is modelled as the pure per-index map
  `updateSnowflakesFn`.
-/

namespace SnowDome

noncomputable section

open scoped Classical

/-- 3-component real vector, modelling WGSL `vec3f`. -/
@[ext] structure Vec3 where
  x : ℝ
  y : ℝ
  z : ℝ

/-- One particle record, modelling the `Snowflake` struct of
`src/snowdome/shaders/snowflake.ts` (position, velocity, size, phase,
alpha, rotation). -/
@[ext] structure Snowflake where
  position : Vec3
  velocity : Vec3
  size : ℝ
  phase : ℝ
  alpha : ℝ
  rotation : ℝ

/-- The `SimParams` uniform struct of `src/snowdome/shaders/physics.ts`
(lines 96-110). -/
structure SimParams where
  time : ℝ
  deltaTime : ℝ
  domeRadius : ℝ
  domeCenterY : ℝ
  floorY : ℝ
  gravity : ℝ
  dragCoeff : ℝ
  turbulence : ℝ
  restitution : ℝ
  shakeAccelX : ℝ
  shakeAccelY : ℝ
  shakeAccelZ : ℝ
  snowflakeCount : ℕ

/-- WGSL `f32(i32(x))`: truncation toward zero. -/
def truncR (x : ℝ) : ℝ := if 0 ≤ x then (⌊x⌋ : ℝ) else (⌈x⌉ : ℝ)

/-- The shader idiom `x - f32(i32(x))` (fractional part for `x ≥ 0`). -/
def fracT (x : ℝ) : ℝ := x - truncR x

/-- One arm of the hash in `noise3DFn` (`common.ts` lines 116-128):
fold `w` into `[0, 2π)` by truncation, square it, scale by `43758.5453`
and keep the fractional part. -/
def hashFrac (w : ℝ) : ℝ :=
  let twoPi : ℝ := 6.2832
  let s := w - truncR (w / twoPi) * twoPi
  fracT (s * s * 43758.5453)

/-- The 3D hash noise `noise3DFn` of `src/snowdome/shaders/common.ts`
(lines 108-132): three linear lattice projections of `p`, hashed by
`hashFrac`, averaged and rescaled to `[-1, 1)`. -/
def noise3DFn (p : Vec3) : ℝ :=
  let px := p.x * 127.1 + p.y * 311.7 + p.z * 74.7
  let py := p.x * 269.5 + p.y * 183.3 + p.z * 246.1
  let pz := p.x * 113.5 + p.y * 271.9 + p.z * 124.6
  (hashFrac px + hashFrac py + hashFrac pz) / 1.5 - 1

/-- Euclidean norm of a velocity, `sqrt(vx² + vy² + vz²)`
(`physics.ts` line 149 and line 234). -/
def speedOf (v : Vec3) : ℝ := Real.sqrt (v.x * v.x + v.y * v.y + v.z * v.z)

/-- Drag acceleration (`physics.ts` lines 148-158): quadratic drag
`-v * (dragCoeff * speed)` guarded by `speed > 0.001`, else zero. -/
def dragAccel (params : SimParams) (v : Vec3) : Vec3 :=
  let speed := speedOf v
  if speed > 0.001 then
    let c := params.dragCoeff * speed
    ⟨(0 - v.x) * c, (0 - v.y) * c, (0 - v.z) * c⟩
  else
    ⟨0, 0, 0⟩

/-- Turbulence acceleration (`physics.ts` lines 165-175): noise sampled at
a time-shifted scaling of the position, driving per-axis sinusoids
decorrelated by the particle's `phase`. -/
def turbAccel (params : SimParams) (pos : Vec3) (ph : ℝ) : Vec3 :=
  let noiseScale : ℝ := 2.0
  let noiseVal := noise3DFn
    ⟨pos.x * noiseScale + params.time * 0.5,
     pos.y * noiseScale + params.time * 0.3,
     pos.z * noiseScale + params.time * 0.4⟩
  ⟨Real.sin (noiseVal * 6.28 + params.time + ph) * params.turbulence,
   Real.cos (noiseVal * 6.28 * 0.7 + params.time * 0.8) * params.turbulence * 0.3,
   Real.sin (noiseVal * 6.28 * 1.3 + params.time * 0.6 + ph) * params.turbulence⟩

/-- Total accumulated acceleration (`physics.ts` lines 143-182): gravity
(vertical only) + drag + shake + turbulence, grouped per axis exactly as in
the velocity-update lines 180-182. -/
def totalAccel (params : SimParams) (pos vel : Vec3) (ph : ℝ) : Vec3 :=
  let g := 0 - params.gravity
  let drag := dragAccel params vel
  let turb := turbAccel params pos ph
  ⟨drag.x + params.shakeAccelX + turb.x,
   g + drag.y + params.shakeAccelY + turb.y,
   drag.z + params.shakeAccelZ + turb.z⟩

/-- Semi-implicit Euler integration (`physics.ts` lines 177-187): the
velocity is updated first, and the position update uses the updated
velocity.  Returns `(new position, new velocity)`. -/
def integrate (dt : ℝ) (pos vel acc : Vec3) : Vec3 × Vec3 :=
  let vel2 : Vec3 := ⟨vel.x + acc.x * dt, vel.y + acc.y * dt, vel.z + acc.z * dt⟩
  let pos2 : Vec3 := ⟨pos.x + vel2.x * dt, pos.y + vel2.y * dt, pos.z + vel2.z * dt⟩
  (pos2, vel2)

/-- Distance of `pos` from the dome center `(0, domeCenterY, 0)`
(`physics.ts` lines 192-193). -/
def distFromCenter (params : SimParams) (pos : Vec3) : ℝ :=
  Real.sqrt (pos.x * pos.x +
    (pos.y - params.domeCenterY) * (pos.y - params.domeCenterY) +
    pos.z * pos.z)

/-- Spherical dome boundary response (`physics.ts` lines 189-215): if the
distance from the dome center exceeds `domeRadius * 0.95`, clamp the
position onto that sphere along the outward normal and, when the velocity
points outward, replace it by the reflected vector scaled by
`restitution`. -/
def domeCollide (params : SimParams) (pos vel : Vec3) : Vec3 × Vec3 :=
  let dist := distFromCenter params pos
  let maxRadius := params.domeRadius * 0.95
  if dist > maxRadius then
    let nx := pos.x / dist
    let ny := (pos.y - params.domeCenterY) / dist
    let nz := pos.z / dist
    let posB : Vec3 := ⟨nx * maxRadius, ny * maxRadius + params.domeCenterY, nz * maxRadius⟩
    let velDotN := vel.x * nx + vel.y * ny + vel.z * nz
    let velB : Vec3 :=
      if velDotN > 0 then
        ⟨(vel.x - 2 * velDotN * nx) * params.restitution,
         (vel.y - 2 * velDotN * ny) * params.restitution,
         (vel.z - 2 * velDotN * nz) * params.restitution⟩
      else
        vel
    (posB, velB)
  else
    (pos, vel)

/-- Floor boundary response (`physics.ts` lines 217-231): below `floorY`
the height is clamped, the particle is flagged as on the floor, a negative
vertical velocity is reflected with `restitution * 0.5` damping, and both
horizontal velocity components are multiplied by `0.9`.  Returns
`(position, velocity, onFloor)`. -/
def floorCollide (params : SimParams) (pos vel : Vec3) : Vec3 × Vec3 × Bool :=
  if pos.y < params.floorY then
    let vy := if vel.y < 0 then |vel.y| * params.restitution * 0.5 else vel.y
    (⟨pos.x, params.floorY, pos.z⟩, ⟨vel.x * 0.9, vy, vel.z * 0.9⟩, true)
  else
    (pos, vel, false)

/-- Stochastic respawn (`physics.ts` lines 233-275): a particle that is on
the floor with total speed below `0.02` is, with pseudo-random chance
`< 0.05` derived from `(idx, time)`, teleported to a pseudo-random point in
the upper interior of the dome with velocity `(0, -0.01, 0)`; otherwise the
state passes through unchanged. -/
def respawnStage (params : SimParams) (idx : ℕ) (pos vel : Vec3) (onFloor : Bool) :
    Vec3 × Vec3 :=
  let totalSpeed := speedOf vel
  if onFloor = true ∧ totalSpeed < 0.02 then
    let respawnChance := (idx : ℝ) * 0.0001 + params.time * 10.0
    let respawnRand := fracT respawnChance
    if respawnRand < 0.05 then
      let seed1 := (idx : ℝ) * 0.1234 + params.time * 0.567
      let seed2 := (idx : ℝ) * 0.5678 + params.time * 0.123
      let seed3 := (idx : ℝ) * 0.9012 + params.time * 0.345
      let twoPi : ℝ := 6.2832
      let theta := fracT seed1 * twoPi
      let randR := fracT seed2
      let sqrtR := Real.sqrt randR
      let randH := fracT seed3
      let heightFrac := 0.5 + randH * 0.35
      let spawnY := params.domeCenterY + params.domeRadius * heightFrac
      let relativeY := spawnY - params.domeCenterY
      let maxRadiusAtHeight :=
        Real.sqrt (params.domeRadius * params.domeRadius * 0.9 - relativeY * relativeY)
      let safeRadius := maxRadiusAtHeight * 0.85
      let r := sqrtR * safeRadius
      (⟨Real.sin theta * r, spawnY, Real.cos theta * r⟩, ⟨0, 0 - 0.01, 0⟩)
    else
      (pos, vel)
  else
    (pos, vel)

/-- One full per-particle physics step: the body of `updateSnowflakesFn`
(`physics.ts` lines 133-279) after the bounds check — force accumulation,
semi-implicit Euler integration, dome collision, floor collision, respawn,
and write-back of position and velocity only. -/
def updateSnowflake (params : SimParams) (idx : ℕ) (sf : Snowflake) : Snowflake :=
  let acc := totalAccel params sf.position sf.velocity sf.phase
  let iv := integrate params.deltaTime sf.position sf.velocity acc
  let dm := domeCollide params iv.1 iv.2
  let fl := floorCollide params dm.1 dm.2
  let rs := respawnStage params idx fl.1 fl.2.1 fl.2.2
  { sf with position := rs.1, velocity := rs.2 }

/-- The whole compute dispatch `updateSnowflakesFn` (`physics.ts` lines
119-280) as a map on index-addressed particle arrays: invocation `i`
updates slot `i` when `i < snowflakeCount` and leaves it untouched
otherwise (lines 128-131). -/
def updateSnowflakesFn (params : SimParams) (s : ℕ → Snowflake) : ℕ → Snowflake :=
  fun i => if i < params.snowflakeCount then updateSnowflake params i (s i) else s i

/-- The scene constants of `src/snowdome/config.ts` packed into a
`SimParams` record (with `time = 0` and one 60 fps frame). -/
def cfgParams : SimParams where
  time := 0
  deltaTime := 0.016
  domeRadius := 0.7
  domeCenterY := 0.35
  floorY := -0.15
  gravity := 0.15
  dragCoeff := 2.0
  turbulence := 0.4
  restitution := 0.1
  shakeAccelX := 0
  shakeAccelY := 0
  shakeAccelZ := 0
  snowflakeCount := 3000

/-- A particle at rest at the dome center, used as a concrete input in
witnesses. -/
def restSnowflake : Snowflake where
  position := ⟨0, 0.35, 0⟩
  velocity := ⟨0, 0, 0⟩
  size := 0.01
  phase := 0
  alpha := 1
  rotation := 0

/-- Parameters with `deltaTime = 0` and a unit dome centered at height 0,
used to exercise the zero-time-step behaviour on concrete inputs. -/
def zeroDtParams : SimParams where
  time := 0
  deltaTime := 0
  domeRadius := 1
  domeCenterY := 0
  floorY := -0.5
  gravity := 0.15
  dragCoeff := 2
  turbulence := 0.4
  restitution := 0.1
  shakeAccelX := 0
  shakeAccelY := 0
  shakeAccelZ := 0
  snowflakeCount := 1

/-- A particle that starts inside the `zeroDtParams` dome but below its
floor, sliding in the x-direction. -/
def belowFloorSnowflake : Snowflake where
  position := ⟨0, -0.7, 0⟩
  velocity := ⟨1, 0, 0⟩
  size := 0.01
  phase := 0
  alpha := 1
  rotation := 0

theorem fracT_nonneg_of_nonneg {x : ℝ} (hx : 0 ≤ x) : 0 ≤ fracT x := by
  unfold fracT truncR
  rw [if_pos hx]
  have := Int.floor_le x
  linarith

theorem fracT_lt_one_of_nonneg {x : ℝ} (hx : 0 ≤ x) : fracT x < 1 := by
  unfold fracT truncR
  rw [if_pos hx]
  have := Int.lt_floor_add_one x
  linarith

theorem hashFrac_nonneg (w : ℝ) : 0 ≤ hashFrac w := by
  unfold hashFrac
  exact fracT_nonneg_of_nonneg
    (mul_nonneg (mul_self_nonneg _) (by norm_num))

theorem hashFrac_lt_one (w : ℝ) : hashFrac w < 1 := by
  unfold hashFrac
  exact fracT_lt_one_of_nonneg
    (mul_nonneg (mul_self_nonneg _) (by norm_num))

/-- Claim C5: `noise3DFn` is a pure function of its 3D input (equal inputs
give equal outputs, and the definition reads nothing but its argument), and
its output always lies in `[-1, 1]` (in fact in `[-1, 1)`). -/
theorem noise3DFn_pure_bounded (p q : Vec3) (hpq : p = q) :
    noise3DFn p = noise3DFn q ∧ -1 ≤ noise3DFn p ∧ noise3DFn p < 1 := by
  subst hpq
  have h1n := hashFrac_nonneg (p.x * 127.1 + p.y * 311.7 + p.z * 74.7)
  have h1l := hashFrac_lt_one (p.x * 127.1 + p.y * 311.7 + p.z * 74.7)
  have h2n := hashFrac_nonneg (p.x * 269.5 + p.y * 183.3 + p.z * 246.1)
  have h2l := hashFrac_lt_one (p.x * 269.5 + p.y * 183.3 + p.z * 246.1)
  have h3n := hashFrac_nonneg (p.x * 113.5 + p.y * 271.9 + p.z * 124.6)
  have h3l := hashFrac_lt_one (p.x * 113.5 + p.y * 271.9 + p.z * 124.6)
  refine ⟨rfl, ?_, ?_⟩ <;> simp only [noise3DFn]
  · have hq : (0 : ℝ) ≤
        (hashFrac (p.x * 127.1 + p.y * 311.7 + p.z * 74.7) +
            hashFrac (p.x * 269.5 + p.y * 183.3 + p.z * 246.1) +
            hashFrac (p.x * 113.5 + p.y * 271.9 + p.z * 124.6)) / 1.5 :=
      div_nonneg (by linarith) (by norm_num)
    linarith
  · have hq :
        (hashFrac (p.x * 127.1 + p.y * 311.7 + p.z * 74.7) +
            hashFrac (p.x * 269.5 + p.y * 183.3 + p.z * 246.1) +
            hashFrac (p.x * 113.5 + p.y * 271.9 + p.z * 124.6)) / 1.5 < 2 :=
      (div_lt_iff₀ (by norm_num)).mpr (by linarith)
    linarith

/-- Witness for C5 at the concrete input `(0, 0, 0)`. -/
theorem noise3DFn_pure_bounded_witness :
    noise3DFn ⟨0, 0, 0⟩ = noise3DFn ⟨0, 0, 0⟩ ∧
      -1 ≤ noise3DFn ⟨0, 0, 0⟩ ∧ noise3DFn ⟨0, 0, 0⟩ < 1 :=
  noise3DFn_pure_bounded ⟨0, 0, 0⟩ ⟨0, 0, 0⟩ rfl

/-- Claim C8: the drag acceleration equals
`-velocity * dragCoeff * |velocity|` exactly when the speed exceeds
`0.001`, and is exactly zero when the speed is at most `0.001` (the guard
keeps the at-rest case total and stable — in this embedding every branch is
a total real-valued expression). -/
theorem dragAccel_quadratic (params : SimParams) (v : Vec3) :
    (0.001 < speedOf v →
      dragAccel params v =
        ⟨-(v.x * params.dragCoeff * speedOf v),
         -(v.y * params.dragCoeff * speedOf v),
         -(v.z * params.dragCoeff * speedOf v)⟩) ∧
    (speedOf v ≤ 0.001 → dragAccel params v = ⟨0, 0, 0⟩) := by
  unfold dragAccel
  constructor
  · intro h
    rw [if_pos h]
    ext <;> dsimp <;> ring
  · intro h
    rw [if_neg (not_lt.mpr h)]

/-- Witness for C8: a unit-speed particle in the x-direction under the
config parameters. -/
theorem dragAccel_quadratic_witness :
    dragAccel cfgParams ⟨1, 0, 0⟩ =
      ⟨-(1 * cfgParams.dragCoeff * speedOf ⟨1, 0, 0⟩),
       -(0 * cfgParams.dragCoeff * speedOf ⟨1, 0, 0⟩),
       -(0 * cfgParams.dragCoeff * speedOf ⟨1, 0, 0⟩)⟩ :=
  (dragAccel_quadratic cfgParams ⟨1, 0, 0⟩).1 (by
    have h : speedOf ⟨1, 0, 0⟩ = 1 := by
      unfold speedOf
      norm_num
    rw [h]
    norm_num)

/-- Claim C9: the integration stage (used verbatim inside
`updateSnowflake`) is semi-implicit Euler: the returned velocity is
`vel + acc * dt`, the returned position is `pos + newVel * dt` with the
already-updated velocity, and whenever `acc.x * dt ≠ 0` the new position
differs from the explicit-Euler value `pos + oldVel * dt`, so the
pre-update velocity is never what the position update uses. -/
theorem integrate_semi_implicit (dt : ℝ) (pos vel acc : Vec3) :
    (integrate dt pos vel acc).2 =
        ⟨vel.x + acc.x * dt, vel.y + acc.y * dt, vel.z + acc.z * dt⟩ ∧
    (integrate dt pos vel acc).1 =
        ⟨pos.x + (integrate dt pos vel acc).2.x * dt,
         pos.y + (integrate dt pos vel acc).2.y * dt,
         pos.z + (integrate dt pos vel acc).2.z * dt⟩ ∧
    (acc.x * dt ≠ 0 →
      (integrate dt pos vel acc).1.x ≠ pos.x + vel.x * dt) := by
  refine ⟨rfl, rfl, ?_⟩
  intro h hEq
  unfold integrate at hEq
  dsimp at hEq
  have h2 : (acc.x * dt) * dt = 0 := by linear_combination hEq
  rcases mul_eq_zero.mp h2 with h3 | h3
  · exact h h3
  · exact h (by rw [h3, mul_zero])

/-- Witness for C9 with `dt = 1`, zero initial state and unit
x-acceleration. -/
theorem integrate_semi_implicit_witness :
    (Vec3.mk 1 0 0).x * 1 ≠ 0 ∧
      (integrate 1 ⟨0, 0, 0⟩ ⟨0, 0, 0⟩ ⟨1, 0, 0⟩).1.x ≠
        (Vec3.mk 0 0 0).x + (Vec3.mk 0 0 0).x * 1 :=
  ⟨by norm_num,
   (integrate_semi_implicit 1 ⟨0, 0, 0⟩ ⟨0, 0, 0⟩ ⟨1, 0, 0⟩).2.2 (by norm_num)⟩

/-- Claim C6: below `floorY` the floor stage clamps the height to exactly
`floorY`, reports contact, reflects a negative vertical velocity to
`|velY| * restitution * 0.5`, and multiplies both horizontal velocity
components by `0.9` whether or not a bounce occurred; at or above `floorY`
it changes nothing and reports no contact. -/
theorem floorCollide_spec (params : SimParams) (pos vel : Vec3) :
    (pos.y < params.floorY →
      floorCollide params pos vel =
        (⟨pos.x, params.floorY, pos.z⟩,
         ⟨vel.x * 0.9,
          if vel.y < 0 then |vel.y| * params.restitution * 0.5 else vel.y,
          vel.z * 0.9⟩,
         true)) ∧
    (params.floorY ≤ pos.y → floorCollide params pos vel = (pos, vel, false)) := by
  unfold floorCollide
  constructor
  · intro h
    rw [if_pos h]
  · intro h
    rw [if_neg (not_lt.mpr h)]

/-- Witness for C6: a particle below the config floor moving down and
sideways. -/
theorem floorCollide_spec_witness :
    floorCollide cfgParams ⟨0.2, -1, 0.3⟩ ⟨1, -1, 1⟩ =
      (⟨(Vec3.mk 0.2 (-1) 0.3).x, cfgParams.floorY, (Vec3.mk 0.2 (-1) 0.3).z⟩,
       ⟨(Vec3.mk 1 (-1) 1).x * 0.9,
        if (Vec3.mk 1 (-1) 1).y < 0 then
          |(Vec3.mk 1 (-1) 1).y| * cfgParams.restitution * 0.5
        else (Vec3.mk 1 (-1) 1).y,
        (Vec3.mk 1 (-1) 1).z * 0.9⟩,
       true) :=
  (floorCollide_spec cfgParams ⟨0.2, -1, 0.3⟩ ⟨1, -1, 1⟩).1 (by
    show (-1 : ℝ) < cfgParams.floorY
    unfold cfgParams
    norm_num)

theorem sqrt_eval {a b : ℝ} (hb : 0 ≤ b) (h : a = b ^ 2) : Real.sqrt a = b := by
  rw [h]
  exact Real.sqrt_sq hb

theorem integrate_zero_dt (pos vel acc : Vec3) :
    integrate 0 pos vel acc = (pos, vel) := by
  unfold integrate
  ext <;> (dsimp; ring)

/-- Claim C4: the step is a deterministic per-particle map — the
post-state of slot `i` depends only on slot `i`'s own previous state, the
shared parameters and `i` itself, so changing any other particle (here: an
entire second array agreeing with the first only at `i`) never changes
particle `i`'s result, and re-running the step on equal inputs gives equal
outputs. -/
theorem updateSnowflakesFn_per_particle (params : SimParams)
    (s1 s2 : ℕ → Snowflake) (i : ℕ) (h : s1 i = s2 i) :
    updateSnowflakesFn params s1 i = updateSnowflakesFn params s2 i := by
  unfold updateSnowflakesFn
  rw [h]

/-- Witness for C4: two arrays that agree at index 0 but differ everywhere
else give the same result for particle 0. -/
theorem updateSnowflakesFn_per_particle_witness :
    updateSnowflakesFn cfgParams (fun _ => restSnowflake) 0 =
      updateSnowflakesFn cfgParams
        (fun j => if j = 0 then restSnowflake else { restSnowflake with alpha := 0 }) 0 :=
  updateSnowflakesFn_per_particle cfgParams _ _ 0 (by simp)

/-- Claim C10: the write-set is exactly position and velocity of in-range
particles — an invocation with index at or beyond `snowflakeCount` mutates
nothing, and for every index the `size`, `phase`, `alpha` and `rotation`
fields pass through the step unchanged. -/
theorem updateSnowflakesFn_write_set (params : SimParams)
    (s : ℕ → Snowflake) (i : ℕ) :
    (params.snowflakeCount ≤ i → updateSnowflakesFn params s i = s i) ∧
    (updateSnowflakesFn params s i).size = (s i).size ∧
    (updateSnowflakesFn params s i).phase = (s i).phase ∧
    (updateSnowflakesFn params s i).alpha = (s i).alpha ∧
    (updateSnowflakesFn params s i).rotation = (s i).rotation := by
  unfold updateSnowflakesFn
  constructor
  · intro h
    rw [if_neg (not_lt.mpr h)]
  · by_cases hc : i < params.snowflakeCount
    · rw [if_pos hc]
      unfold updateSnowflake
      exact ⟨rfl, rfl, rfl, rfl⟩
    · rw [if_neg hc]
      exact ⟨rfl, rfl, rfl, rfl⟩

/-- Witness for C10: invocation index 3000 (= the configured count) leaves
its slot untouched. -/
theorem updateSnowflakesFn_write_set_witness :
    updateSnowflakesFn cfgParams (fun _ => restSnowflake) 3000 =
      (fun _ => restSnowflake) 3000 :=
  (updateSnowflakesFn_write_set cfgParams (fun _ => restSnowflake) 3000).1
    (by unfold cfgParams; exact le_refl 3000)

/-- Claim C3 is false as stated: with `deltaTime = 0` the boundary stages
still act, so a particle starting below the floor is clamped up to `floorY`
and its position changes.  Here `zeroDtParams.deltaTime = 0` yet the
particle at height `-0.7` ends at height `-0.5`. -/
theorem zero_dt_moves_cex :
    zeroDtParams.deltaTime = 0 ∧
      (updateSnowflake zeroDtParams 0 belowFloorSnowflake).position.y ≠
        belowFloorSnowflake.position.y := by
  have e2 : domeCollide zeroDtParams belowFloorSnowflake.position
      belowFloorSnowflake.velocity =
      (belowFloorSnowflake.position, belowFloorSnowflake.velocity) := by
    have hd : distFromCenter zeroDtParams belowFloorSnowflake.position = 0.7 := by
      show Real.sqrt (0 * 0 + (-0.7 - 0) * (-0.7 - 0) + 0 * 0) = 0.7
      exact sqrt_eval (by norm_num) (by norm_num)
    unfold domeCollide
    rw [hd]
    have hR : zeroDtParams.domeRadius = (1 : ℝ) := rfl
    rw [hR, if_neg (by norm_num : ¬ ((0.7 : ℝ) > 1 * 0.95))]
  have e3 : floorCollide zeroDtParams belowFloorSnowflake.position
      belowFloorSnowflake.velocity =
      (⟨0, -0.5, 0⟩, ⟨0.9, 0, 0⟩, true) := by
    unfold floorCollide
    rw [if_pos (show belowFloorSnowflake.position.y < zeroDtParams.floorY by
      norm_num [belowFloorSnowflake, zeroDtParams])]
    norm_num [belowFloorSnowflake, zeroDtParams]
  have e4 : respawnStage zeroDtParams 0 ⟨0, -0.5, 0⟩ ⟨0.9, 0, 0⟩ true =
      (⟨0, -0.5, 0⟩, ⟨0.9, 0, 0⟩) := by
    have hs : speedOf ⟨0.9, 0, 0⟩ = 0.9 := by
      show Real.sqrt (0.9 * 0.9 + 0 * 0 + 0 * 0) = 0.9
      exact sqrt_eval (by norm_num) (by norm_num)
    unfold respawnStage
    rw [hs, if_neg (by norm_num : ¬ (true = true ∧ (0.9 : ℝ) < 0.02))]
  have hstep : updateSnowflake zeroDtParams 0 belowFloorSnowflake =
      { belowFloorSnowflake with position := ⟨0, -0.5, 0⟩, velocity := ⟨0.9, 0, 0⟩ } := by
    simp only [updateSnowflake]
    rw [show zeroDtParams.deltaTime = (0 : ℝ) from rfl, integrate_zero_dt]
    dsimp only
    rw [e2]
    dsimp only
    rw [e3]
    dsimp only
    rw [e4]
  refine ⟨rfl, ?_⟩
  rw [hstep]
  norm_num [belowFloorSnowflake]

/-- Claim C3 (amended): with `deltaTime = 0` a particle whose current
position is already within bounds — at most `domeRadius * 0.95` from the
dome center and at least at floor height — is left exactly unchanged by the
step; out-of-bounds states may still be moved by the boundary clamps. -/
theorem zero_dt_fixed_in_bounds (params : SimParams) (idx : ℕ) (sf : Snowflake)
    (hdt : params.deltaTime = 0)
    (hin : distFromCenter params sf.position ≤ params.domeRadius * 0.95)
    (hfl : params.floorY ≤ sf.position.y) :
    updateSnowflake params idx sf = sf := by
  have e2 : domeCollide params sf.position sf.velocity =
      (sf.position, sf.velocity) := by
    unfold domeCollide
    rw [if_neg (not_lt.mpr hin)]
  have e3 : floorCollide params sf.position sf.velocity =
      (sf.position, sf.velocity, false) := by
    unfold floorCollide
    rw [if_neg (not_lt.mpr hfl)]
  have e4 : respawnStage params idx sf.position sf.velocity false =
      (sf.position, sf.velocity) := by
    unfold respawnStage
    rw [if_neg (by simp : ¬ (false = true ∧ speedOf sf.velocity < 0.02))]
  simp only [updateSnowflake]
  rw [hdt, integrate_zero_dt]
  dsimp only
  rw [e2]
  dsimp only
  rw [e3]
  dsimp only
  rw [e4]

theorem distFromCenter_sq (params : SimParams) (pos : Vec3) :
    distFromCenter params pos * distFromCenter params pos =
      pos.x * pos.x +
        (pos.y - params.domeCenterY) * (pos.y - params.domeCenterY) +
        pos.z * pos.z := by
  unfold distFromCenter
  exact Real.mul_self_sqrt (by
    nlinarith [mul_self_nonneg pos.x, mul_self_nonneg (pos.y - params.domeCenterY),
      mul_self_nonneg pos.z])

theorem distFromCenter_eval (params : SimParams) (q : Vec3) {b : ℝ} (hb : 0 ≤ b)
    (h : q.x * q.x + (q.y - params.domeCenterY) * (q.y - params.domeCenterY) +
        q.z * q.z = b ^ 2) :
    distFromCenter params q = b := by
  unfold distFromCenter
  exact sqrt_eval hb h

theorem dome_normal_unit (params : SimParams) (pos : Vec3)
    (hd : 0 < distFromCenter params pos) :
    (pos.x / distFromCenter params pos) * (pos.x / distFromCenter params pos) +
      ((pos.y - params.domeCenterY) / distFromCenter params pos) *
        ((pos.y - params.domeCenterY) / distFromCenter params pos) +
      (pos.z / distFromCenter params pos) * (pos.z / distFromCenter params pos) = 1 := by
  have h2 := distFromCenter_sq params pos
  field_simp
  linarith [h2]

/-- Claim C1 is false as stated: on a dome collision with outward velocity,
the code multiplies the whole reflected vector — tangential component
included — by `restitution`.  Concretely, for the particle at `(2, 0, 0)`
(outside the unit dome centred at the origin, normal `(1, 0, 0)`) with
velocity `(1, 1, 0)` and `restitution = 0.1`, the tangential (y) velocity
component changes from `1` to `0.1` instead of staying unaffected. -/
theorem dome_tangential_damped_cex :
    zeroDtParams.domeRadius * 0.95 < distFromCenter zeroDtParams ⟨2, 0, 0⟩ ∧
      (domeCollide zeroDtParams ⟨2, 0, 0⟩ ⟨1, 1, 0⟩).2.y ≠ (Vec3.mk 1 1 0).y := by
  have hd : distFromCenter zeroDtParams ⟨2, 0, 0⟩ = 2 := by
    show Real.sqrt (2 * 2 + (0 - 0) * (0 - 0) + 0 * 0) = 2
    exact sqrt_eval (by norm_num) (by norm_num)
  have hR : zeroDtParams.domeRadius = (1 : ℝ) := rfl
  have e : domeCollide zeroDtParams ⟨2, 0, 0⟩ ⟨1, 1, 0⟩ =
      (⟨0.95, 0, 0⟩, ⟨-0.1, 0.1, 0⟩) := by
    simp only [domeCollide]
    rw [hd, hR]
    rw [if_pos (by norm_num : ((1 : ℝ) * 0.95) < 2)]
    norm_num [zeroDtParams]
  rw [e]
  constructor
  · rw [hd, hR]
    norm_num
  · norm_num

/-- Claim C1 (amended): when the post-integration distance from the dome
center exceeds `domeRadius * 0.95`, the stage clamps the position onto the
sphere of that radius along the outward radial direction, and when
`dot(velocity, normal) > 0` it sets the velocity to the reflected vector
`(v - 2(v·n)n)` scaled as a whole by `restitution` — so the normal
component is reversed and scaled by `restitution`, and the tangential
component is also scaled by `restitution` rather than left unaffected;
when `dot(velocity, normal) ≤ 0` the velocity is unchanged. -/
theorem domeCollide_reflection (params : SimParams) (pos vel : Vec3)
    (dist nx ny nz vdn : ℝ)
    (hR : 0 ≤ params.domeRadius)
    (hout : params.domeRadius * 0.95 < distFromCenter params pos)
    (hdist : dist = distFromCenter params pos)
    (hnx : nx = pos.x / dist)
    (hny : ny = (pos.y - params.domeCenterY) / dist)
    (hnz : nz = pos.z / dist)
    (hvdn : vdn = vel.x * nx + vel.y * ny + vel.z * nz) :
    (domeCollide params pos vel).1 =
        ⟨nx * (params.domeRadius * 0.95),
         ny * (params.domeRadius * 0.95) + params.domeCenterY,
         nz * (params.domeRadius * 0.95)⟩ ∧
    distFromCenter params (domeCollide params pos vel).1 =
        params.domeRadius * 0.95 ∧
    (0 < vdn →
      (domeCollide params pos vel).2 =
          ⟨(vel.x - 2 * vdn * nx) * params.restitution,
           (vel.y - 2 * vdn * ny) * params.restitution,
           (vel.z - 2 * vdn * nz) * params.restitution⟩ ∧
      (domeCollide params pos vel).2.x * nx + (domeCollide params pos vel).2.y * ny +
          (domeCollide params pos vel).2.z * nz = -(params.restitution * vdn) ∧
      (domeCollide params pos vel).2.x - -(params.restitution * vdn) * nx =
          params.restitution * (vel.x - vdn * nx) ∧
      (domeCollide params pos vel).2.y - -(params.restitution * vdn) * ny =
          params.restitution * (vel.y - vdn * ny) ∧
      (domeCollide params pos vel).2.z - -(params.restitution * vdn) * nz =
          params.restitution * (vel.z - vdn * nz)) ∧
    (vdn ≤ 0 → (domeCollide params pos vel).2 = vel) := by
  subst hdist hnx hny hnz hvdn
  have hdpos : 0 < distFromCenter params pos :=
    lt_of_le_of_lt (mul_nonneg hR (by norm_num)) hout
  have hn1 := dome_normal_unit params pos hdpos
  have hstep : domeCollide params pos vel =
      (⟨pos.x / distFromCenter params pos * (params.domeRadius * 0.95),
        (pos.y - params.domeCenterY) / distFromCenter params pos *
            (params.domeRadius * 0.95) + params.domeCenterY,
        pos.z / distFromCenter params pos * (params.domeRadius * 0.95)⟩,
       if 0 < vel.x * (pos.x / distFromCenter params pos) +
            vel.y * ((pos.y - params.domeCenterY) / distFromCenter params pos) +
            vel.z * (pos.z / distFromCenter params pos) then
         ⟨(vel.x - 2 * (vel.x * (pos.x / distFromCenter params pos) +
              vel.y * ((pos.y - params.domeCenterY) / distFromCenter params pos) +
              vel.z * (pos.z / distFromCenter params pos)) *
              (pos.x / distFromCenter params pos)) * params.restitution,
          (vel.y - 2 * (vel.x * (pos.x / distFromCenter params pos) +
              vel.y * ((pos.y - params.domeCenterY) / distFromCenter params pos) +
              vel.z * (pos.z / distFromCenter params pos)) *
              ((pos.y - params.domeCenterY) / distFromCenter params pos)) * params.restitution,
          (vel.z - 2 * (vel.x * (pos.x / distFromCenter params pos) +
              vel.y * ((pos.y - params.domeCenterY) / distFromCenter params pos) +
              vel.z * (pos.z / distFromCenter params pos)) *
              (pos.z / distFromCenter params pos)) * params.restitution⟩
       else vel) := by
    simp only [domeCollide]
    rw [if_pos hout]
  refine ⟨?_, ?_, ?_, ?_⟩
  · rw [hstep]
  · rw [hstep]
    apply distFromCenter_eval params _ (mul_nonneg hR (by norm_num))
    dsimp only
    linear_combination (params.domeRadius * 0.95) ^ 2 * hn1
  · intro hv
    rw [hstep, if_pos hv]
    refine ⟨rfl, ?_, ?_, ?_, ?_⟩ <;> dsimp only
    · linear_combination
        (-(2 * params.restitution *
          (vel.x * (pos.x / distFromCenter params pos) +
            vel.y * ((pos.y - params.domeCenterY) / distFromCenter params pos) +
            vel.z * (pos.z / distFromCenter params pos)))) * hn1
    · ring
    · ring
    · ring
  · intro hv
    rw [hstep, if_neg (not_lt.mpr hv)]

/-- Witness for the amended C1 at the concrete collision used in the
counterexample: the clamped position lies exactly on the safety sphere. -/
theorem domeCollide_reflection_witness :
    distFromCenter zeroDtParams (domeCollide zeroDtParams ⟨2, 0, 0⟩ ⟨1, 1, 0⟩).1 =
      zeroDtParams.domeRadius * 0.95 :=
  (domeCollide_reflection zeroDtParams ⟨2, 0, 0⟩ ⟨1, 1, 0⟩ 2 1 0 0 1
    (by show (0 : ℝ) ≤ 1; norm_num)
    (by
      have hd : distFromCenter zeroDtParams ⟨2, 0, 0⟩ = 2 := by
        show Real.sqrt (2 * 2 + (0 - 0) * (0 - 0) + 0 * 0) = 2
        exact sqrt_eval (by norm_num) (by norm_num)
      rw [hd]
      show (1 : ℝ) * 0.95 < 2
      norm_num)
    (by
      have hd : distFromCenter zeroDtParams ⟨2, 0, 0⟩ = 2 := by
        show Real.sqrt (2 * 2 + (0 - 0) * (0 - 0) + 0 * 0) = 2
        exact sqrt_eval (by norm_num) (by norm_num)
      rw [hd])
    (by norm_num [zeroDtParams]) (by norm_num [zeroDtParams])
    (by norm_num [zeroDtParams]) (by norm_num [zeroDtParams])).2.1

/-- Witness for the amended C3: the rest particle at the dome center under
the config parameters with `deltaTime = 0` is a fixed point of the step. -/
theorem zero_dt_fixed_in_bounds_witness :
    updateSnowflake { cfgParams with deltaTime := 0 } 0 restSnowflake =
      restSnowflake :=
  zero_dt_fixed_in_bounds { cfgParams with deltaTime := 0 } 0 restSnowflake rfl
    (by
      show Real.sqrt (0 * 0 + (0.35 - 0.35) * (0.35 - 0.35) + 0 * 0) ≤ 0.7 * 0.95
      rw [show (0 * 0 + (0.35 - 0.35) * (0.35 - 0.35) + 0 * 0 : ℝ) = 0 by norm_num,
        Real.sqrt_zero]
      norm_num)
    (by
      show (-0.15 : ℝ) ≤ 0.35
      norm_num)

theorem respawn_components (params : SimParams) (idx : ℕ) (pos vel : Vec3)
    (onF : Bool) (hc : onF = true ∧ speedOf vel < 0.02)
    (hr : fracT ((idx : ℝ) * 0.0001 + params.time * 10.0) < 0.05) :
    (respawnStage params idx pos vel onF).2 = ⟨0, 0 - 0.01, 0⟩ ∧
    (respawnStage params idx pos vel onF).1.y =
      params.domeCenterY + params.domeRadius *
        (0.5 + fracT ((idx : ℝ) * 0.9012 + params.time * 0.345) * 0.35) ∧
    (respawnStage params idx pos vel onF).1.x =
      Real.sin (fracT ((idx : ℝ) * 0.1234 + params.time * 0.567) * 6.2832) *
        (Real.sqrt (fracT ((idx : ℝ) * 0.5678 + params.time * 0.123)) *
          (Real.sqrt (params.domeRadius * params.domeRadius * 0.9 -
              params.domeRadius *
                  (0.5 + fracT ((idx : ℝ) * 0.9012 + params.time * 0.345) * 0.35) *
                (params.domeRadius *
                  (0.5 + fracT ((idx : ℝ) * 0.9012 + params.time * 0.345) * 0.35))) *
            0.85)) ∧
    (respawnStage params idx pos vel onF).1.z =
      Real.cos (fracT ((idx : ℝ) * 0.1234 + params.time * 0.567) * 6.2832) *
        (Real.sqrt (fracT ((idx : ℝ) * 0.5678 + params.time * 0.123)) *
          (Real.sqrt (params.domeRadius * params.domeRadius * 0.9 -
              params.domeRadius *
                  (0.5 + fracT ((idx : ℝ) * 0.9012 + params.time * 0.345) * 0.35) *
                (params.domeRadius *
                  (0.5 + fracT ((idx : ℝ) * 0.9012 + params.time * 0.345) * 0.35))) *
            0.85)) := by
  have harg : params.domeCenterY + params.domeRadius *
        (0.5 + fracT ((idx : ℝ) * 0.9012 + params.time * 0.345) * 0.35) -
        params.domeCenterY =
      params.domeRadius *
        (0.5 + fracT ((idx : ℝ) * 0.9012 + params.time * 0.345) * 0.35) := by
    ring
  refine ⟨?_, ?_, ?_, ?_⟩ <;> (simp only [respawnStage]; rw [if_pos hc, if_pos hr])
  · dsimp only
    rw [harg]
  · dsimp only
    rw [harg]

set_option maxHeartbeats 2000000 in
/-- Claim C7: respawn is evaluated only for a particle that is on the floor
this step with total speed below `0.02`; when the `(idx, time)`-derived
pseudo-random value falls below the `0.05` threshold the velocity becomes
exactly `(0, -0.01, 0)` and the new position lies in the spherical cap in
the upper dome interior — height between 50% and 85% of the dome radius
above the center, and squared horizontal radius equal to the uniform random
number times the squared safe radius (the square-root radius transform),
hence within the safe cap radius; in every other case the stage changes
nothing. -/
theorem respawnStage_gated (params : SimParams) (idx : ℕ) (pos vel : Vec3)
    (onFloor : Bool) (ht : 0 ≤ params.time) (hR : 0 ≤ params.domeRadius) :
    (onFloor = false ∨ 0.02 ≤ speedOf vel →
      respawnStage params idx pos vel onFloor = (pos, vel)) ∧
    (0.05 ≤ fracT ((idx : ℝ) * 0.0001 + params.time * 10.0) →
      respawnStage params idx pos vel onFloor = (pos, vel)) ∧
    (onFloor = true → speedOf vel < 0.02 →
      fracT ((idx : ℝ) * 0.0001 + params.time * 10.0) < 0.05 →
      (respawnStage params idx pos vel onFloor).2 = ⟨0, 0 - 0.01, 0⟩ ∧
      (respawnStage params idx pos vel onFloor).1.y =
        params.domeCenterY + params.domeRadius *
          (0.5 + fracT ((idx : ℝ) * 0.9012 + params.time * 0.345) * 0.35) ∧
      params.domeCenterY + params.domeRadius * 0.5 ≤
        (respawnStage params idx pos vel onFloor).1.y ∧
      (respawnStage params idx pos vel onFloor).1.y ≤
        params.domeCenterY + params.domeRadius * 0.85 ∧
      (respawnStage params idx pos vel onFloor).1.x ^ 2 +
          (respawnStage params idx pos vel onFloor).1.z ^ 2 =
        fracT ((idx : ℝ) * 0.5678 + params.time * 0.123) *
          (Real.sqrt (params.domeRadius * params.domeRadius * 0.9 -
              params.domeRadius *
                  (0.5 + fracT ((idx : ℝ) * 0.9012 + params.time * 0.345) * 0.35) *
                (params.domeRadius *
                  (0.5 + fracT ((idx : ℝ) * 0.9012 + params.time * 0.345) * 0.35))) *
            0.85) ^ 2 ∧
      (respawnStage params idx pos vel onFloor).1.x ^ 2 +
          (respawnStage params idx pos vel onFloor).1.z ^ 2 ≤
        0.7225 * (params.domeRadius * params.domeRadius * 0.9 -
          params.domeRadius *
              (0.5 + fracT ((idx : ℝ) * 0.9012 + params.time * 0.345) * 0.35) *
            (params.domeRadius *
              (0.5 + fracT ((idx : ℝ) * 0.9012 + params.time * 0.345) * 0.35)))) := by
  refine ⟨?_, ?_, ?_⟩
  · intro h
    have hc : ¬ (onFloor = true ∧ speedOf vel < 0.02) := by
      rcases h with h | h
      · simp [h]
      · intro hc
        linarith [hc.2]
    simp only [respawnStage]
    rw [if_neg hc]
  · intro h
    by_cases hc : onFloor = true ∧ speedOf vel < 0.02
    · simp only [respawnStage]
      rw [if_pos hc, if_neg (not_lt.mpr h)]
    · simp only [respawnStage]
      rw [if_neg hc]
  · intro h1 h2 h3
    obtain ⟨hv, hy, hx, hz⟩ := respawn_components params idx pos vel onFloor ⟨h1, h2⟩ h3
    have hseed2 : (0 : ℝ) ≤ (idx : ℝ) * 0.5678 + params.time * 0.123 :=
      add_nonneg (mul_nonneg (Nat.cast_nonneg idx) (by norm_num))
        (mul_nonneg ht (by norm_num))
    have hseed3 : (0 : ℝ) ≤ (idx : ℝ) * 0.9012 + params.time * 0.345 :=
      add_nonneg (mul_nonneg (Nat.cast_nonneg idx) (by norm_num))
        (mul_nonneg ht (by norm_num))
    have hf2n := fracT_nonneg_of_nonneg hseed2
    have hf2l := fracT_lt_one_of_nonneg hseed2
    have hf3n := fracT_nonneg_of_nonneg hseed3
    have hf3l := fracT_lt_one_of_nonneg hseed3
    have hs2 : Real.sqrt (fracT ((idx : ℝ) * 0.5678 + params.time * 0.123)) ^ 2 =
        fracT ((idx : ℝ) * 0.5678 + params.time * 0.123) := Real.sq_sqrt hf2n
    have hsc := Real.sin_sq_add_cos_sq
      (fracT ((idx : ℝ) * 0.1234 + params.time * 0.567) * 6.2832)
    have hw : params.domeRadius *
          (0.5 + fracT ((idx : ℝ) * 0.9012 + params.time * 0.345) * 0.35) *
          (params.domeRadius *
            (0.5 + fracT ((idx : ℝ) * 0.9012 + params.time * 0.345) * 0.35)) ≤
        0.7225 * (params.domeRadius * params.domeRadius) := by
      nlinarith [mul_nonneg (mul_nonneg hR hR)
        (mul_nonneg
          (by linarith :
            (0 : ℝ) ≤ 0.85 - (0.5 + fracT ((idx : ℝ) * 0.9012 + params.time * 0.345) * 0.35))
          (by linarith :
            (0 : ℝ) ≤ 0.85 + (0.5 + fracT ((idx : ℝ) * 0.9012 + params.time * 0.345) * 0.35)))]
    have hargn : (0 : ℝ) ≤ params.domeRadius * params.domeRadius * 0.9 -
        params.domeRadius *
            (0.5 + fracT ((idx : ℝ) * 0.9012 + params.time * 0.345) * 0.35) *
          (params.domeRadius *
            (0.5 + fracT ((idx : ℝ) * 0.9012 + params.time * 0.345) * 0.35)) := by
      nlinarith [hw, mul_nonneg hR hR]
    have hm2 : Real.sqrt (params.domeRadius * params.domeRadius * 0.9 -
          params.domeRadius *
              (0.5 + fracT ((idx : ℝ) * 0.9012 + params.time * 0.345) * 0.35) *
            (params.domeRadius *
              (0.5 + fracT ((idx : ℝ) * 0.9012 + params.time * 0.345) * 0.35))) ^ 2 =
        params.domeRadius * params.domeRadius * 0.9 -
          params.domeRadius *
              (0.5 + fracT ((idx : ℝ) * 0.9012 + params.time * 0.345) * 0.35) *
            (params.domeRadius *
              (0.5 + fracT ((idx : ℝ) * 0.9012 + params.time * 0.345) * 0.35)) :=
      Real.sq_sqrt hargn
    have hsq : (respawnStage params idx pos vel onFloor).1.x ^ 2 +
        (respawnStage params idx pos vel onFloor).1.z ^ 2 =
        fracT ((idx : ℝ) * 0.5678 + params.time * 0.123) *
          (Real.sqrt (params.domeRadius * params.domeRadius * 0.9 -
              params.domeRadius *
                  (0.5 + fracT ((idx : ℝ) * 0.9012 + params.time * 0.345) * 0.35) *
                (params.domeRadius *
                  (0.5 + fracT ((idx : ℝ) * 0.9012 + params.time * 0.345) * 0.35))) *
            0.85) ^ 2 := by
      rw [hx, hz]
      linear_combination
        (Real.sqrt (fracT ((idx : ℝ) * 0.5678 + params.time * 0.123)) *
            (Real.sqrt (params.domeRadius * params.domeRadius * 0.9 -
                params.domeRadius *
                    (0.5 + fracT ((idx : ℝ) * 0.9012 + params.time * 0.345) * 0.35) *
                  (params.domeRadius *
                    (0.5 + fracT ((idx : ℝ) * 0.9012 + params.time * 0.345) * 0.35))) *
              0.85)) ^ 2 * hsc +
          (Real.sqrt (params.domeRadius * params.domeRadius * 0.9 -
              params.domeRadius *
                  (0.5 + fracT ((idx : ℝ) * 0.9012 + params.time * 0.345) * 0.35) *
                (params.domeRadius *
                  (0.5 + fracT ((idx : ℝ) * 0.9012 + params.time * 0.345) * 0.35))) *
            0.85) ^ 2 * hs2
    refine ⟨hv, hy, ?_, ?_, hsq, ?_⟩
    · rw [hy]
      nlinarith [mul_nonneg hR hf3n]
    · rw [hy]
      nlinarith [mul_nonneg hR (by linarith :
        (0 : ℝ) ≤ 1 - fracT ((idx : ℝ) * 0.9012 + params.time * 0.345))]
    · rw [hsq]
      nlinarith [hm2, mul_nonneg (by linarith :
          (0 : ℝ) ≤ 1 - fracT ((idx : ℝ) * 0.5678 + params.time * 0.123)) hargn,
        Real.sqrt_nonneg (params.domeRadius * params.domeRadius * 0.9 -
          params.domeRadius *
              (0.5 + fracT ((idx : ℝ) * 0.9012 + params.time * 0.345) * 0.35) *
            (params.domeRadius *
              (0.5 + fracT ((idx : ℝ) * 0.9012 + params.time * 0.345) * 0.35)))]

/-- Witness for C7: a particle that is not on the floor passes through the
respawn stage unchanged. -/
theorem respawnStage_gated_witness :
    respawnStage cfgParams 0 ⟨0, 0, 0⟩ ⟨0, 0, 0⟩ false =
      (⟨0, 0, 0⟩, ⟨0, 0, 0⟩) :=
  (respawnStage_gated cfgParams 0 ⟨0, 0, 0⟩ ⟨0, 0, 0⟩ false
    (by show (0 : ℝ) ≤ 0; norm_num) (by show (0 : ℝ) ≤ 0.7; norm_num)).1
    (Or.inl rfl)

theorem dome_clamped_dist (params : SimParams) (pos vel : Vec3)
    (hR : 0 ≤ params.domeRadius)
    (h : params.domeRadius * 0.95 < distFromCenter params pos) :
    distFromCenter params (domeCollide params pos vel).1 =
      params.domeRadius * 0.95 := by
  have hdpos : 0 < distFromCenter params pos :=
    lt_of_le_of_lt (mul_nonneg hR (by norm_num)) h
  have hn1 := dome_normal_unit params pos hdpos
  have hpos1 : (domeCollide params pos vel).1 =
      ⟨pos.x / distFromCenter params pos * (params.domeRadius * 0.95),
       (pos.y - params.domeCenterY) / distFromCenter params pos *
           (params.domeRadius * 0.95) + params.domeCenterY,
       pos.z / distFromCenter params pos * (params.domeRadius * 0.95)⟩ := by
    simp only [domeCollide]
    rw [if_pos h]
  rw [hpos1]
  apply distFromCenter_eval params _ (mul_nonneg hR (by norm_num))
  dsimp only
  linear_combination (params.domeRadius * 0.95) ^ 2 * hn1

theorem dome_stage_in_bounds (params : SimParams) (pos vel : Vec3)
    (hR : 0 ≤ params.domeRadius) :
    distFromCenter params (domeCollide params pos vel).1 ≤
      params.domeRadius * 0.95 := by
  by_cases h : params.domeRadius * 0.95 < distFromCenter params pos
  · exact le_of_eq (dome_clamped_dist params pos vel hR h)
  · have e : domeCollide params pos vel = (pos, vel) := by
      simp only [domeCollide]
      rw [if_neg h]
    rw [e]
    exact not_lt.mp h

theorem floor_stage_in_bounds (params : SimParams) (pos vel : Vec3)
    (hfc : params.floorY ≤ params.domeCenterY)
    (hdome : distFromCenter params pos ≤ params.domeRadius * 0.95) :
    distFromCenter params (floorCollide params pos vel).1 ≤
        params.domeRadius * 0.95 ∧
    params.floorY ≤ (floorCollide params pos vel).1.y := by
  by_cases h : pos.y < params.floorY
  · have e : (floorCollide params pos vel).1 = ⟨pos.x, params.floorY, pos.z⟩ := by
      simp only [floorCollide]
      rw [if_pos h]
    rw [e]
    constructor
    · refine le_trans ?_ hdome
      unfold distFromCenter
      apply Real.sqrt_le_sqrt
      dsimp only
      nlinarith [mul_nonneg
        (by linarith : (0 : ℝ) ≤ params.floorY - pos.y)
        (by linarith : (0 : ℝ) ≤ 2 * params.domeCenterY - pos.y - params.floorY)]
    · exact le_refl _
  · have e : floorCollide params pos vel = (pos, vel, false) := by
      simp only [floorCollide]
      rw [if_neg h]
    rw [e]
    exact ⟨hdome, not_lt.mp h⟩

set_option maxHeartbeats 2000000 in
theorem respawn_stage_in_bounds (params : SimParams) (idx : ℕ) (pos vel : Vec3)
    (onF : Bool) (ht : 0 ≤ params.time) (hR : 0 ≤ params.domeRadius)
    (hfc : params.floorY ≤ params.domeCenterY)
    (hdome : distFromCenter params pos ≤ params.domeRadius * 0.95)
    (hfl : params.floorY ≤ pos.y) :
    distFromCenter params (respawnStage params idx pos vel onF).1 ≤
        params.domeRadius * 0.95 ∧
    params.floorY ≤ (respawnStage params idx pos vel onF).1.y := by
  by_cases hc : onF = true ∧ speedOf vel < 0.02
  · by_cases hr : fracT ((idx : ℝ) * 0.0001 + params.time * 10.0) < 0.05
    · obtain ⟨hv, hy, hx, hz⟩ := respawn_components params idx pos vel onF hc hr
      have hseed2 : (0 : ℝ) ≤ (idx : ℝ) * 0.5678 + params.time * 0.123 :=
        add_nonneg (mul_nonneg (Nat.cast_nonneg idx) (by norm_num))
          (mul_nonneg ht (by norm_num))
      have hseed3 : (0 : ℝ) ≤ (idx : ℝ) * 0.9012 + params.time * 0.345 :=
        add_nonneg (mul_nonneg (Nat.cast_nonneg idx) (by norm_num))
          (mul_nonneg ht (by norm_num))
      have hf2n := fracT_nonneg_of_nonneg hseed2
      have hf2l := fracT_lt_one_of_nonneg hseed2
      have hf3n := fracT_nonneg_of_nonneg hseed3
      have hf3l := fracT_lt_one_of_nonneg hseed3
      set f2 := fracT ((idx : ℝ) * 0.5678 + params.time * 0.123) with hf2d
      set f3 := fracT ((idx : ℝ) * 0.9012 + params.time * 0.345) with hf3d
      set th := fracT ((idx : ℝ) * 0.1234 + params.time * 0.567) * 6.2832 with hthd
      have hw : params.domeRadius * (0.5 + f3 * 0.35) *
            (params.domeRadius * (0.5 + f3 * 0.35)) ≤
          0.7225 * (params.domeRadius * params.domeRadius) := by
        nlinarith [mul_nonneg (mul_nonneg hR hR)
          (mul_nonneg (by linarith : (0 : ℝ) ≤ 0.85 - (0.5 + f3 * 0.35))
            (by linarith : (0 : ℝ) ≤ 0.85 + (0.5 + f3 * 0.35)))]
      have hargn : (0 : ℝ) ≤ params.domeRadius * params.domeRadius * 0.9 -
          params.domeRadius * (0.5 + f3 * 0.35) *
            (params.domeRadius * (0.5 + f3 * 0.35)) := by
        nlinarith [hw, mul_nonneg hR hR]
      set M := Real.sqrt (params.domeRadius * params.domeRadius * 0.9 -
          params.domeRadius * (0.5 + f3 * 0.35) *
            (params.domeRadius * (0.5 + f3 * 0.35))) with hMd
      have hm2 : M ^ 2 = params.domeRadius * params.domeRadius * 0.9 -
          params.domeRadius * (0.5 + f3 * 0.35) *
            (params.domeRadius * (0.5 + f3 * 0.35)) := Real.sq_sqrt hargn
      have hs2 : Real.sqrt f2 ^ 2 = f2 := Real.sq_sqrt hf2n
      have hsc := Real.sin_sq_add_cos_sq th
      constructor
      · unfold distFromCenter
        rw [hx, hy, hz]
        have hxz : Real.sin th * (Real.sqrt f2 * (M * 0.85)) *
              (Real.sin th * (Real.sqrt f2 * (M * 0.85))) +
            Real.cos th * (Real.sqrt f2 * (M * 0.85)) *
              (Real.cos th * (Real.sqrt f2 * (M * 0.85))) =
            f2 * (M * 0.85) ^ 2 := by
          linear_combination (Real.sqrt f2 * (M * 0.85)) ^ 2 * hsc +
            (M * 0.85) ^ 2 * hs2
        have heq : Real.sin th * (Real.sqrt f2 * (M * 0.85)) *
              (Real.sin th * (Real.sqrt f2 * (M * 0.85))) +
            (params.domeCenterY + params.domeRadius * (0.5 + f3 * 0.35) -
                params.domeCenterY) *
              (params.domeCenterY + params.domeRadius * (0.5 + f3 * 0.35) -
                params.domeCenterY) +
            Real.cos th * (Real.sqrt f2 * (M * 0.85)) *
              (Real.cos th * (Real.sqrt f2 * (M * 0.85))) =
            0.7225 * (f2 * (params.domeRadius * params.domeRadius * 0.9 -
                params.domeRadius * (0.5 + f3 * 0.35) *
                  (params.domeRadius * (0.5 + f3 * 0.35)))) +
              params.domeRadius * (0.5 + f3 * 0.35) *
                (params.domeRadius * (0.5 + f3 * 0.35)) := by
          linear_combination hxz + 0.7225 * f2 * hm2
        have hfa : f2 * (params.domeRadius * params.domeRadius * 0.9 -
              params.domeRadius * (0.5 + f3 * 0.35) *
                (params.domeRadius * (0.5 + f3 * 0.35))) ≤
            params.domeRadius * params.domeRadius * 0.9 -
              params.domeRadius * (0.5 + f3 * 0.35) *
                (params.domeRadius * (0.5 + f3 * 0.35)) := by
          nlinarith [mul_nonneg (by linarith : (0 : ℝ) ≤ 1 - f2) hargn]
        calc Real.sqrt (Real.sin th * (Real.sqrt f2 * (M * 0.85)) *
              (Real.sin th * (Real.sqrt f2 * (M * 0.85))) +
            (params.domeCenterY + params.domeRadius * (0.5 + f3 * 0.35) -
                params.domeCenterY) *
              (params.domeCenterY + params.domeRadius * (0.5 + f3 * 0.35) -
                params.domeCenterY) +
            Real.cos th * (Real.sqrt f2 * (M * 0.85)) *
              (Real.cos th * (Real.sqrt f2 * (M * 0.85)))) ≤
            Real.sqrt ((params.domeRadius * 0.95) ^ 2) :=
              Real.sqrt_le_sqrt (by linarith [heq, hfa, hw, mul_nonneg hR hR])
          _ = params.domeRadius * 0.95 :=
              Real.sqrt_sq (mul_nonneg hR (by norm_num))
      · rw [hy]
        have := mul_nonneg hR (by linarith : (0 : ℝ) ≤ 0.5 + f3 * 0.35)
        linarith
    · have e : respawnStage params idx pos vel onF = (pos, vel) := by
        simp only [respawnStage]
        rw [if_pos hc, if_neg (not_lt.mpr (le_of_not_lt hr))]
      rw [e]
      exact ⟨hdome, hfl⟩
  · have e : respawnStage params idx pos vel onF = (pos, vel) := by
      simp only [respawnStage]
      rw [if_neg hc]
    rw [e]
    exact ⟨hdome, hfl⟩

theorem updateSnowflake_in_bounds (params : SimParams) (idx : ℕ) (sf : Snowflake)
    (ht : 0 ≤ params.time) (hR : 0 ≤ params.domeRadius)
    (hfc : params.floorY ≤ params.domeCenterY) :
    distFromCenter params (updateSnowflake params idx sf).position ≤
        params.domeRadius * 0.95 ∧
    params.floorY ≤ (updateSnowflake params idx sf).position.y := by
  simp only [updateSnowflake]
  refine respawn_stage_in_bounds params idx _ _ _ ht hR hfc ?_ ?_
  · exact (floor_stage_in_bounds params _ _ hfc
      (dome_stage_in_bounds params _ _ hR)).1
  · exact (floor_stage_in_bounds params _ _ hfc
      (dome_stage_in_bounds params _ _ hR)).2

/-- Claim C2: for every in-range particle and any starting state, after one
step (and hence after any positive number of steps) the particle is at most
`domeRadius * 0.95` from the dome center `(0, domeCenterY, 0)` and at least
at floor height.  The scene-parameter hypotheses (`0 ≤ domeRadius`,
`floorY ≤ domeCenterY`, `0 ≤ time`) hold for the config constants and keep
every square-root argument nonnegative. -/
theorem containment_invariant (params : SimParams) (s : ℕ → Snowflake)
    (i n : ℕ) (hR : 0 ≤ params.domeRadius)
    (hfc : params.floorY ≤ params.domeCenterY) (ht : 0 ≤ params.time)
    (hi : i < params.snowflakeCount) (hn : 0 < n) :
    distFromCenter params (((updateSnowflakesFn params)^[n] s) i).position ≤
        params.domeRadius * 0.95 ∧
    params.floorY ≤ (((updateSnowflakesFn params)^[n] s) i).position.y := by
  obtain ⟨m, rfl⟩ : ∃ m, n = m + 1 := ⟨n - 1, (Nat.succ_pred_eq_of_pos hn).symm⟩
  rw [Function.iterate_succ_apply']
  have hsel : updateSnowflakesFn params ((updateSnowflakesFn params)^[m] s) i =
      updateSnowflake params i (((updateSnowflakesFn params)^[m] s) i) := by
    unfold updateSnowflakesFn
    rw [if_pos hi]
  rw [hsel]
  exact updateSnowflake_in_bounds params i _ ht hR hfc

/-- Witness for C2: one step from the rest state under the config
parameters. -/
theorem containment_invariant_witness :
    distFromCenter cfgParams
        (((updateSnowflakesFn cfgParams)^[1] (fun _ => restSnowflake)) 0).position ≤
      cfgParams.domeRadius * 0.95 ∧
    cfgParams.floorY ≤
      (((updateSnowflakesFn cfgParams)^[1] (fun _ => restSnowflake)) 0).position.y :=
  containment_invariant cfgParams (fun _ => restSnowflake) 0 1
    (by show (0 : ℝ) ≤ 0.7; norm_num)
    (by show (-0.15 : ℝ) ≤ 0.35; norm_num)
    (by show (0 : ℝ) ≤ 0; norm_num)
    (by show (0 : ℕ) < 3000; norm_num)
    (by norm_num)

end

end SnowDome
